import Mathlib

/-!
Verification of the rairplay session-negotiation layer and codec-record
extractor against its specification.

Shallow embedding of two source files:

* `examples/trancode2file/src/video.rs` — the codec detector
  (`detect_codec`), the codec-record extractor (`extract_codec_record`)
  and the recursive box walker (`find_box_payload` with its inner
  `parse_range` loop).  Byte buffers are modelled as `List Nat` (each
  element a byte value); `u32::from_be_bytes` is modelled by `readBE32`.
  The Rust `while` loop of `parse_range` together with its recursive
  calls is modelled as a single well-founded recursion on the size
  `limit - cursor` of the byte range being scanned; totality of the Lean
  function is exactly the termination of the Rust walker, and all buffer
  accesses are modelled with total `List` operations (`getD`, `drop`,
  `take`), mirroring that the Rust code only slices inside the checked
  range.

* `airplay/src/rtsp/dto.rs` — the SETUP/TEARDOWN message model.  The
  wire values produced by the plist/serde layer are modelled by the
  `Value` inductive; each `#[derive(Deserialize)]` / manual
  `Deserialize`/`Serialize` impl is modelled by an explicit decoder or
  encoder over `Value`, following serde's semantics: fields are looked
  up by their `serde(rename)` name, `Option` fields treat an absent (or
  null) field as `none`, `#[serde(untagged)]` tries the variants in
  declaration order, and sequence decoding stops at the first failing
  element.
-/

/-! ### Box walker (video.rs) -/

/-- One byte of a buffer; out-of-range reads default to `0` (the Rust code
never performs them inside the checked range, see `parse_range`). -/
def getByte (buf : List Nat) (i : Nat) : Nat := buf.getD i 0

/-- Model of `u32::from_be_bytes(buf[i..i+4])`. -/
def readBE32 (buf : List Nat) (i : Nat) : Nat :=
  getByte buf i * 16777216 + getByte buf (i + 1) * 65536 + getByte buf (i + 2) * 256 +
    getByte buf (i + 3)

/-- Big-endian 4-byte encoding of a length, inverse of `readBE32` for
values below `2^32`; used to build concrete box records in theorems. -/
def be32 (n : Nat) : List Nat :=
  [n / 16777216 % 256, n / 65536 % 256, n / 256 % 256, n % 256]

/-- Effective size of the record starting at `cursor`: the declared
big-endian length, where a declared length of `0` means "extends to the
end of the enclosing range" (`size = limit - cursor` in video.rs). -/
def effSize (buf : List Nat) (cursor limit : Nat) : Nat :=
  if readBE32 buf cursor = 0 then limit - cursor else readBE32 buf cursor

/-- The 4-byte tag of the record starting at `cursor`
(`&buf[cursor + 4..cursor + 8]` in video.rs). -/
def kindAt (buf : List Nat) (cursor : Nat) : List Nat :=
  (buf.drop (cursor + 4)).take 4

/-- Byte values of the tag `avc1`. -/
def avc1Tag : List Nat := [97, 118, 99, 49]

/-- Byte values of the tag `hvc1`. -/
def hvc1Tag : List Nat := [104, 118, 99, 49]

/-- Byte values of the tag `hev1`. -/
def hev1Tag : List Nat := [104, 101, 118, 49]

/-- Byte values of the tag `stsd`. -/
def stsdTag : List Nat := [115, 116, 115, 100]

/-- Byte values of the tag `trak`. -/
def trakTag : List Nat := [116, 114, 97, 107]

/-- Byte values of the tag `mdia`. -/
def mdiaTag : List Nat := [109, 100, 105, 97]

/-- Byte values of the tag `minf`. -/
def minfTag : List Nat := [109, 105, 110, 102]

/-- Byte values of the tag `stbl`. -/
def stblTag : List Nat := [115, 116, 98, 108]

/-- Byte values of the marker `avcC`. -/
def avcCTag : List Nat := [97, 118, 99, 67]

/-- Byte values of the marker `hvcC`. -/
def hvcCTag : List Nat := [104, 118, 99, 67]

/-- Model of `matches!(kind, b"avc1" | b"hvc1" | b"hev1")` in video.rs. -/
def isSampleEntryKind (kind : List Nat) : Bool :=
  kind = avc1Tag ∨ kind = hvc1Tag ∨ kind = hev1Tag

/-- Model of `matches!(kind, b"stsd" | b"trak" | b"mdia" | b"minf" | b"stbl")`
in video.rs. -/
def isContainerKind (kind : List Nat) : Bool :=
  kind = stsdTag ∨ kind = trakTag ∨ kind = mdiaTag ∨ kind = minfTag ∨ kind = stblTag

/-- The constant `VIDEO_SAMPLE_ENTRY_FIELDS_LEN` of video.rs. -/
def VIDEO_SAMPLE_ENTRY_FIELDS_LEN : Nat := 78

/-- Model of the inner `parse_range` function of `find_box_payload` in
video.rs.  The Rust `while cursor + 8 <= limit` loop is expressed as the
tail call in the `none` branch of the `match`; the two recursive descents
(sample-entry body after the fixed 78-byte preamble, and generic
container body) are the calls inside the `match` scrutinee.  The
function is total: Lean accepts it by well-founded recursion on
`limit - cursor`, which is exactly the termination argument of claim
C10. -/
def parse_range (buf : List Nat) (cursor limit : Nat) (marker : List Nat) :
    Option (List Nat) :=
  if cursor + 8 ≤ limit then
    if h : effSize buf cursor limit < 8 ∨ cursor + effSize buf cursor limit > limit then
      none
    else
      if kindAt buf cursor = marker then
        some ((buf.drop (cursor + 8)).take (effSize buf cursor limit - 8))
      else
        match
          (if isSampleEntryKind (kindAt buf cursor) then
            if cursor + 8 + VIDEO_SAMPLE_ENTRY_FIELDS_LEN < cursor + effSize buf cursor limit then
              parse_range buf (cursor + 8 + VIDEO_SAMPLE_ENTRY_FIELDS_LEN)
                (cursor + effSize buf cursor limit) marker
            else none
          else if isContainerKind (kindAt buf cursor) then
            if cursor + 8 < cursor + effSize buf cursor limit then
              parse_range buf (cursor + 8) (cursor + effSize buf cursor limit) marker
            else none
          else none) with
        | some r => some r
        | none => parse_range buf (cursor + effSize buf cursor limit) limit marker
  else none
termination_by limit - cursor
decreasing_by all_goals omega

/-- Model of `find_box_payload` in video.rs. -/
def find_box_payload (buf : List Nat) (marker : List Nat) : Option (List Nat) :=
  parse_range buf 0 buf.length marker

/-- The `VideoCodec` enum of video.rs. -/
inductive VideoCodec where
  | H264
  | H265
  | Unknown
deriving DecidableEq, Repr

/-- Model of `detect_codec` in video.rs. -/
def detect_codec (avcc : List Nat) : VideoCodec :=
  if 8 ≤ avcc.length then
    if (avcc.drop 4).take 4 = hvc1Tag then VideoCodec.H265 else VideoCodec.H264
  else VideoCodec.Unknown

/-- Model of `extract_codec_record` in video.rs. -/
def extract_codec_record (header : List Nat) (codec : VideoCodec) : Option (List Nat) :=
  if header.head? = some 1 then
    some header
  else
    match codec with
    | VideoCodec.H264 => find_box_payload header avcCTag
    | VideoCodec.H265 => find_box_payload header hvcCTag
    | VideoCodec.Unknown => none

/-- A record with an 8-byte header: 4-byte big-endian declared length
(covering the header) followed by a 4-byte tag and the payload.  Used to
state theorems about well-formed boxes. -/
def mkBox (tag payload : List Nat) : List Nat :=
  be32 (8 + payload.length) ++ tag ++ payload

/-! ### Session negotiation message model (dto.rs) -/

/-- Wire values handed to the serde layer (plist/JSON-like).  `int`
covers all wire integers; `bytes` is the binary-data type that
`bytes::Bytes` fields deserialize from. -/
inductive Value where
  | null
  | bool (b : Bool)
  | int (n : Int)
  | str (s : String)
  | bytes (b : List Nat)
  | arr (items : List Value)
  | obj (fields : List (String × Value))

/-- Field lookup in an object, first occurrence wins (serde reads map
entries in order). -/
def lookupField : List (String × Value) → String → Option Value
  | [], _ => none
  | (k, v) :: rest, key => if k = key then some v else lookupField rest key

/-- Lookup of a named field; non-objects have no fields. -/
def Value.lookup : Value → String → Option Value
  | Value.obj fields, key => lookupField fields key
  | _, _ => none

namespace StreamId

/-- The `StreamId::AUDIO_REALTIME` protocol constant of dto.rs. -/
def AUDIO_REALTIME : Nat := 96

/-- The `StreamId::AUDIO_BUFFERED` protocol constant of dto.rs. -/
def AUDIO_BUFFERED : Nat := 103

/-- The `StreamId::VIDEO` protocol constant of dto.rs. -/
def VIDEO : Nat := 110

end StreamId

/-- Decode a required `u32` field, as serde does for a `u32` struct
field: present integer in range, otherwise an error. -/
def getU32 (v : Value) (k : String) : Except String Nat :=
  match v.lookup k with
  | some (Value.int n) =>
    if 0 ≤ n ∧ n < 4294967296 then Except.ok n.toNat
    else Except.error ("invalid value for field " ++ k)
  | some _ => Except.error ("invalid type for field " ++ k)
  | none => Except.error ("missing field " ++ k)

/-- Decode a required `u16` field. -/
def getU16 (v : Value) (k : String) : Except String Nat :=
  match v.lookup k with
  | some (Value.int n) =>
    if 0 ≤ n ∧ n < 65536 then Except.ok n.toNat
    else Except.error ("invalid value for field " ++ k)
  | some _ => Except.error ("invalid type for field " ++ k)
  | none => Except.error ("missing field " ++ k)

/-- Decode a required `u8` field. -/
def getU8 (v : Value) (k : String) : Except String Nat :=
  match v.lookup k with
  | some (Value.int n) =>
    if 0 ≤ n ∧ n < 256 then Except.ok n.toNat
    else Except.error ("invalid value for field " ++ k)
  | some _ => Except.error ("invalid type for field " ++ k)
  | none => Except.error ("missing field " ++ k)

/-- Decode a required `i64` field. -/
def getI64 (v : Value) (k : String) : Except String Int :=
  match v.lookup k with
  | some (Value.int n) =>
    if -9223372036854775808 ≤ n ∧ n < 9223372036854775808 then Except.ok n
    else Except.error ("invalid value for field " ++ k)
  | some _ => Except.error ("invalid type for field " ++ k)
  | none => Except.error ("missing field " ++ k)

/-- Decode a required `String` field. -/
def getStr (v : Value) (k : String) : Except String String :=
  match v.lookup k with
  | some (Value.str s) => Except.ok s
  | some _ => Except.error ("invalid type for field " ++ k)
  | none => Except.error ("missing field " ++ k)

/-- Decode a required `Bytes` field. -/
def getBytes (v : Value) (k : String) : Except String (List Nat) :=
  match v.lookup k with
  | some (Value.bytes b) => Except.ok b
  | some _ => Except.error ("invalid type for field " ++ k)
  | none => Except.error ("missing field " ++ k)

/-- Decode an `Option<String>` field: absent or null means `none`. -/
def getOptStr (v : Value) (k : String) : Except String (Option String) :=
  match v.lookup k with
  | none => Except.ok none
  | some Value.null => Except.ok none
  | some (Value.str s) => Except.ok (some s)
  | some _ => Except.error ("invalid type for field " ++ k)

/-- Decode an `Option<u8>` field: absent or null means `none`. -/
def getOptU8 (v : Value) (k : String) : Except String (Option Nat) :=
  match v.lookup k with
  | none => Except.ok none
  | some Value.null => Except.ok none
  | some (Value.int n) =>
    if 0 ≤ n ∧ n < 256 then Except.ok (some n.toNat)
    else Except.error ("invalid value for field " ++ k)
  | some _ => Except.error ("invalid type for field " ++ k)

/-- Decode an `Option<u64>` field: absent or null means `none`. -/
def getOptU64 (v : Value) (k : String) : Except String (Option Nat) :=
  match v.lookup k with
  | none => Except.ok none
  | some Value.null => Except.ok none
  | some (Value.int n) =>
    if 0 ≤ n ∧ n < 18446744073709551616 then Except.ok (some n.toNat)
    else Except.error ("invalid value for field " ++ k)
  | some _ => Except.error ("invalid type for field " ++ k)

/-- The `TimingProtocol` enum of dto.rs, internally tagged on the wire by
the `timingProtocol` field. -/
inductive TimingProtocol where
  | Ptp
  | Ntp (remote_port : Nat)
deriving DecidableEq, Repr

/-- The `SenderInfo` struct of dto.rs (wire names per its
`serde(rename)` attributes). -/
structure SenderInfo where
  name : String
  model : String
  device_id : String
  mac_addr : String
  os_name : Option String
  os_version : Option String
  os_build_version : Option String
  ekey : List Nat
  eiv : List Nat
  timing_proto : TimingProtocol
deriving DecidableEq, Repr

/-- The `AudioRealtimeRequest` struct of dto.rs. -/
structure AudioRealtimeRequest where
  content_type : Nat
  audio_format : Nat
  samples_per_frame : Nat
  sample_rate : Nat
  min_latency_samples : Nat
  max_latency_samples : Nat
  remote_control_port : Nat
deriving DecidableEq, Repr

/-- The `AudioBufferedRequest` struct of dto.rs. -/
structure AudioBufferedRequest where
  content_type : Nat
  audio_format : Nat
  audio_format_index : Option Nat
  samples_per_frame : Nat
  shared_key : List Nat
  client_id : Option String
deriving DecidableEq, Repr

/-- The `VideoRequest` struct of dto.rs. -/
structure VideoRequest where
  stream_connection_id : Int
  latency_ms : Nat
deriving DecidableEq, Repr

/-- The `StreamRequest` enum of dto.rs. -/
inductive StreamRequest where
  | AudioRealtime (req : AudioRealtimeRequest)
  | AudioBuffered (req : AudioBufferedRequest)
  | Video (req : VideoRequest)
deriving DecidableEq, Repr

/-- The `SetupRequest` untagged enum of dto.rs. -/
inductive SetupRequest where
  | SenderInfoReq (info : SenderInfo)
  | Streams (requests : List StreamRequest)
deriving DecidableEq, Repr

/-- The stream-type code under which each `StreamRequest` variant is
decoded (the dispatch table of `StreamRequest::deserialize`). -/
def streamRequestCode : StreamRequest → Nat
  | StreamRequest.AudioRealtime _ => StreamId.AUDIO_REALTIME
  | StreamRequest.AudioBuffered _ => StreamId.AUDIO_BUFFERED
  | StreamRequest.Video _ => StreamId.VIDEO

/-- Decoder for the internally tagged `TimingProtocol` enum
(`#[serde(tag = "timingProtocol")]`): dispatch on the `timingProtocol`
string, the `NTP` variant reading its `timingPort` field from the same
object (serde flattens internally tagged variants). -/
def decodeTimingProtocol (v : Value) : Except String TimingProtocol :=
  match v.lookup "timingProtocol" with
  | some (Value.str s) =>
    if s = "PTP" then Except.ok TimingProtocol.Ptp
    else if s = "NTP" then do
      let port ← getU16 v "timingPort"
      pure (TimingProtocol.Ntp port)
    else Except.error ("unknown variant " ++ s)
  | some _ => Except.error "invalid type for field timingProtocol"
  | none => Except.error "missing field timingProtocol"

/-- Decoder for `SenderInfo` (derived `Deserialize` with the renames of
dto.rs; the flattened `timing_proto` reads from the same object). -/
def decodeSenderInfo (v : Value) : Except String SenderInfo := do
  let name ← getStr v "name"
  let model ← getStr v "model"
  let device_id ← getStr v "deviceID"
  let mac_addr ← getStr v "macAddress"
  let os_name ← getOptStr v "osName"
  let os_version ← getOptStr v "osVersion"
  let os_build_version ← getOptStr v "osBuildVersion"
  let ekey ← getBytes v "ekey"
  let eiv ← getBytes v "eiv"
  let timing_proto ← decodeTimingProtocol v
  pure { name, model, device_id, mac_addr, os_name, os_version, os_build_version,
         ekey, eiv, timing_proto }

/-- Decoder for `AudioRealtimeRequest`. -/
def decodeAudioRealtimeRequest (v : Value) : Except String AudioRealtimeRequest := do
  let content_type ← getU8 v "ct"
  let audio_format ← getU32 v "audioFormat"
  let samples_per_frame ← getU32 v "spf"
  let sample_rate ← getU32 v "sr"
  let min_latency_samples ← getU32 v "latencyMin"
  let max_latency_samples ← getU32 v "latencyMax"
  let remote_control_port ← getU16 v "controlPort"
  pure { content_type, audio_format, samples_per_frame, sample_rate,
         min_latency_samples, max_latency_samples, remote_control_port }

/-- Decoder for `AudioBufferedRequest`. -/
def decodeAudioBufferedRequest (v : Value) : Except String AudioBufferedRequest := do
  let content_type ← getU8 v "ct"
  let audio_format ← getU32 v "audioFormat"
  let audio_format_index ← getOptU8 v "audioFormatIndex"
  let samples_per_frame ← getU32 v "spf"
  let shared_key ← getBytes v "shk"
  let client_id ← getOptStr v "clientID"
  pure { content_type, audio_format, audio_format_index, samples_per_frame,
         shared_key, client_id }

/-- Decoder for `VideoRequest`. -/
def decodeVideoRequest (v : Value) : Except String VideoRequest := do
  let stream_connection_id ← getI64 v "streamConnectionID"
  let latency_ms ← getU32 v "latencyMs"
  pure { stream_connection_id, latency_ms }

/-- Model of `StreamRequest::deserialize` in dto.rs: read the generic
`type` envelope first, then re-parse the remaining fields against the
variant selected by that code; any other code fails with the
`unknown stream type` error.  (The variant structs declare no `type`
field, so reading them from the full object is equivalent to reading
them from the flattened payload with `type` removed.) -/
def decodeStreamRequest (v : Value) : Except String StreamRequest :=
  match getU32 v "type" with
  | Except.error e => Except.error e
  | Except.ok tag =>
    if tag = StreamId.AUDIO_REALTIME then
      (decodeAudioRealtimeRequest v).map StreamRequest.AudioRealtime
    else if tag = StreamId.AUDIO_BUFFERED then
      (decodeAudioBufferedRequest v).map StreamRequest.AudioBuffered
    else if tag = StreamId.VIDEO then
      (decodeVideoRequest v).map StreamRequest.Video
    else
      Except.error ("unknown stream type " ++ toString tag)

/-- Element-by-element decoding of `Vec<StreamRequest>`, as serde's
sequence visitor does: the first failing element fails the whole
sequence. -/
def decodeStreamElems : List Value → Except String (List StreamRequest)
  | [] => Except.ok []
  | v :: rest =>
    match decodeStreamRequest v with
    | Except.error e => Except.error e
    | Except.ok r =>
      match decodeStreamElems rest with
      | Except.error e => Except.error e
      | Except.ok rs => Except.ok (r :: rs)

/-- The `Streams` variant body of `SetupRequest`: its single field
`streams` holds the request list. -/
def decodeStreamsVariant (v : Value) : Except String (List StreamRequest) :=
  match v.lookup "streams" with
  | some (Value.arr items) => decodeStreamElems items
  | some _ => Except.error "invalid type for field streams"
  | none => Except.error "missing field streams"

/-- Model of decoding the `#[serde(untagged)]` enum `SetupRequest`:
serde tries the variants in declaration order — `SenderInfo` first, then
`Streams` — and fails with its generic untagged error when neither
matches. -/
def decodeSetupRequest (v : Value) : Except String SetupRequest :=
  match decodeSenderInfo v, decodeStreamsVariant v with
  | Except.ok info, _ => Except.ok (SetupRequest.SenderInfoReq info)
  | Except.error _, Except.ok reqs => Except.ok (SetupRequest.Streams reqs)
  | Except.error _, Except.error _ =>
    Except.error "data did not match any variant of untagged enum SetupRequest"

/-- The `StreamResponse` enum of dto.rs. -/
inductive StreamResponse where
  | AudioRealtime (id : Nat) (local_data_port : Nat) (local_control_port : Nat)
  | AudioBuffered (id : Nat) (local_data_port : Nat) (audio_buffer_size : Nat)
  | Video (id : Nat) (local_data_port : Nat)
deriving DecidableEq, Repr

/-- Model of the manual `Serialize` impl for `StreamResponse` in dto.rs:
each variant emits `type` (the `StreamId` constant), `streamID`,
`dataPort`, and its variant-specific extra field. -/
def encodeStreamResponse : StreamResponse → Value
  | StreamResponse.AudioRealtime id local_data_port local_control_port =>
    Value.obj [("type", Value.int StreamId.AUDIO_REALTIME),
               ("streamID", Value.int id),
               ("dataPort", Value.int local_data_port),
               ("controlPort", Value.int local_control_port)]
  | StreamResponse.AudioBuffered id local_data_port audio_buffer_size =>
    Value.obj [("type", Value.int StreamId.AUDIO_BUFFERED),
               ("streamID", Value.int id),
               ("dataPort", Value.int local_data_port),
               ("audioBufferSize", Value.int audio_buffer_size)]
  | StreamResponse.Video id local_data_port =>
    Value.obj [("type", Value.int StreamId.VIDEO),
               ("streamID", Value.int id),
               ("dataPort", Value.int local_data_port)]

/-- The `TeardownRequest` struct of dto.rs: optional `streamID`,
required `type`. -/
structure TeardownRequest where
  id : Option Nat
  ty : Nat
deriving DecidableEq, Repr

/-- The `Teardown` struct of dto.rs: the `streams` list itself is
optional, and `none` is distinct from `some []`. -/
structure Teardown where
  requests : Option (List TeardownRequest)
deriving DecidableEq, Repr

/-- Decoder for one `TeardownRequest` element. -/
def decodeTeardownRequest (v : Value) : Except String TeardownRequest :=
  match getOptU64 v "streamID" with
  | Except.error e => Except.error e
  | Except.ok id =>
    match getU32 v "type" with
    | Except.error e => Except.error e
    | Except.ok ty => Except.ok { id, ty }

/-- Element-by-element decoding of `Vec<TeardownRequest>`. -/
def decodeTeardownElems : List Value → Except String (List TeardownRequest)
  | [] => Except.ok []
  | v :: rest =>
    match decodeTeardownRequest v with
    | Except.error e => Except.error e
    | Except.ok r =>
      match decodeTeardownElems rest with
      | Except.error e => Except.error e
      | Except.ok rs => Except.ok (r :: rs)

/-- Model of decoding the `Teardown` struct: the `streams` field is
`Option<Vec<TeardownRequest>>`, so an absent (or null) field decodes to
`none` while a present list — empty or not — decodes each element. -/
def decodeTeardown (v : Value) : Except String Teardown :=
  match v.lookup "streams" with
  | none => Except.ok { requests := none }
  | some Value.null => Except.ok { requests := none }
  | some (Value.arr items) =>
    match decodeTeardownElems items with
    | Except.ok rs => Except.ok { requests := some rs }
    | Except.error e => Except.error e
  | some _ => Except.error "invalid type for field streams"

/-! ### Lemmas about one scanning step of `parse_range` -/

/-- Scanning stops (returns `none`) when fewer than 8 bytes remain. -/
theorem parse_range_guard_fail (buf : List Nat) (cursor limit : Nat) (marker : List Nat)
    (hg : ¬ cursor + 8 ≤ limit) : parse_range buf cursor limit marker = none := by
  conv_lhs => rw [parse_range.eq_def]
  rw [if_neg hg]

/-- A record whose effective size is below 8 or extends past the
enclosing range makes the scan of the whole range return `none`. -/
theorem parse_range_invalid (buf : List Nat) (cursor limit : Nat) (marker : List Nat)
    (hg : cursor + 8 ≤ limit)
    (hbad : effSize buf cursor limit < 8 ∨ cursor + effSize buf cursor limit > limit) :
    parse_range buf cursor limit marker = none := by
  conv_lhs => rw [parse_range.eq_def]
  rw [if_pos hg, dif_pos hbad]

/-- A valid record whose tag equals the marker returns its payload: the
bytes after the 8-byte header up to the declared end. -/
theorem parse_range_match (buf : List Nat) (cursor limit : Nat) (marker : List Nat)
    (hg : cursor + 8 ≤ limit)
    (hok : ¬ (effSize buf cursor limit < 8 ∨ cursor + effSize buf cursor limit > limit))
    (hm : kindAt buf cursor = marker) :
    parse_range buf cursor limit marker =
      some ((buf.drop (cursor + 8)).take (effSize buf cursor limit - 8)) := by
  conv_lhs => rw [parse_range.eq_def]
  rw [if_pos hg, dif_neg hok, if_pos hm]

/-- A valid non-matching record of unknown kind is skipped by advancing
the cursor by its effective size. -/
theorem parse_range_skip (buf : List Nat) (cursor limit : Nat) (marker : List Nat)
    (hg : cursor + 8 ≤ limit)
    (hok : ¬ (effSize buf cursor limit < 8 ∨ cursor + effSize buf cursor limit > limit))
    (hm : kindAt buf cursor ≠ marker)
    (hs : ¬ isSampleEntryKind (kindAt buf cursor) = true)
    (hc : ¬ isContainerKind (kindAt buf cursor) = true) :
    parse_range buf cursor limit marker =
      parse_range buf (cursor + effSize buf cursor limit) limit marker := by
  conv_lhs => rw [parse_range.eq_def]
  rw [if_pos hg, dif_neg hok, if_neg hm, if_neg hs, if_neg hc]

/-- A valid non-matching container record recurses into its entire body
(no offset), falling back to the next sibling when the body has no
match. -/
theorem parse_range_container (buf : List Nat) (cursor limit : Nat) (marker : List Nat)
    (hg : cursor + 8 ≤ limit)
    (hok : ¬ (effSize buf cursor limit < 8 ∨ cursor + effSize buf cursor limit > limit))
    (hm : kindAt buf cursor ≠ marker)
    (hs : ¬ isSampleEntryKind (kindAt buf cursor) = true)
    (hc : isContainerKind (kindAt buf cursor) = true)
    (hb : cursor + 8 < cursor + effSize buf cursor limit) :
    parse_range buf cursor limit marker =
      (match parse_range buf (cursor + 8) (cursor + effSize buf cursor limit) marker with
       | some r => some r
       | none => parse_range buf (cursor + effSize buf cursor limit) limit marker) := by
  conv_lhs => rw [parse_range.eq_def]
  rw [if_pos hg, dif_neg hok, if_neg hm, if_neg hs, if_pos hc, if_pos hb]

/-- A valid non-matching container record whose body would be empty is
skipped. -/
theorem parse_range_container_nofit (buf : List Nat) (cursor limit : Nat) (marker : List Nat)
    (hg : cursor + 8 ≤ limit)
    (hok : ¬ (effSize buf cursor limit < 8 ∨ cursor + effSize buf cursor limit > limit))
    (hm : kindAt buf cursor ≠ marker)
    (hs : ¬ isSampleEntryKind (kindAt buf cursor) = true)
    (hc : isContainerKind (kindAt buf cursor) = true)
    (hb : ¬ cursor + 8 < cursor + effSize buf cursor limit) :
    parse_range buf cursor limit marker =
      parse_range buf (cursor + effSize buf cursor limit) limit marker := by
  conv_lhs => rw [parse_range.eq_def]
  rw [if_pos hg, dif_neg hok, if_neg hm, if_neg hs, if_pos hc, if_neg hb]

/-- A valid non-matching sample-entry record recurses into its body
after the fixed 78-byte preamble, falling back to the next sibling when
the body has no match. -/
theorem parse_range_sample_entry (buf : List Nat) (cursor limit : Nat) (marker : List Nat)
    (hg : cursor + 8 ≤ limit)
    (hok : ¬ (effSize buf cursor limit < 8 ∨ cursor + effSize buf cursor limit > limit))
    (hm : kindAt buf cursor ≠ marker)
    (hs : isSampleEntryKind (kindAt buf cursor) = true)
    (hb : cursor + 8 + VIDEO_SAMPLE_ENTRY_FIELDS_LEN < cursor + effSize buf cursor limit) :
    parse_range buf cursor limit marker =
      (match parse_range buf (cursor + 8 + VIDEO_SAMPLE_ENTRY_FIELDS_LEN)
               (cursor + effSize buf cursor limit) marker with
       | some r => some r
       | none => parse_range buf (cursor + effSize buf cursor limit) limit marker) := by
  conv_lhs => rw [parse_range.eq_def]
  rw [if_pos hg, dif_neg hok, if_neg hm, if_pos hs, if_pos hb]

/-- A valid non-matching sample-entry record too small to hold anything
after the 78-byte preamble is skipped. -/
theorem parse_range_sample_entry_nofit (buf : List Nat) (cursor limit : Nat) (marker : List Nat)
    (hg : cursor + 8 ≤ limit)
    (hok : ¬ (effSize buf cursor limit < 8 ∨ cursor + effSize buf cursor limit > limit))
    (hm : kindAt buf cursor ≠ marker)
    (hs : isSampleEntryKind (kindAt buf cursor) = true)
    (hb : ¬ cursor + 8 + VIDEO_SAMPLE_ENTRY_FIELDS_LEN < cursor + effSize buf cursor limit) :
    parse_range buf cursor limit marker =
      parse_range buf (cursor + effSize buf cursor limit) limit marker := by
  conv_lhs => rw [parse_range.eq_def]
  rw [if_pos hg, dif_neg hok, if_neg hm, if_pos hs, if_neg hb]

/-! ### Shift lemmas: reading a buffer after a fixed prefix -/

/-- Bytes of the suffix are read past the prefix unchanged. -/
theorem getByte_append (a buf : List Nat) (j : Nat) :
    getByte (a ++ buf) (a.length + j) = getByte buf j := by
  unfold getByte
  rw [List.getD_append_right a buf 0 (a.length + j) (Nat.le_add_right _ _)]
  congr 1
  omega

/-- A big-endian length read past the prefix is unchanged. -/
theorem readBE32_append (a buf : List Nat) (i : Nat) :
    readBE32 (a ++ buf) (a.length + i) = readBE32 buf i := by
  unfold readBE32
  have e1 : a.length + i + 1 = a.length + (i + 1) := by omega
  have e2 : a.length + i + 2 = a.length + (i + 2) := by omega
  have e3 : a.length + i + 3 = a.length + (i + 3) := by omega
  rw [e1, e2, e3, getByte_append, getByte_append, getByte_append, getByte_append]

/-- The effective record size read past the prefix is unchanged. -/
theorem effSize_append (a buf : List Nat) (c l : Nat) :
    effSize (a ++ buf) (a.length + c) (a.length + l) = effSize buf c l := by
  unfold effSize
  rw [readBE32_append]
  split_ifs <;> omega

/-- The record tag read past the prefix is unchanged. -/
theorem kindAt_append (a buf : List Nat) (c : Nat) :
    kindAt (a ++ buf) (a.length + c) = kindAt buf c := by
  unfold kindAt
  have e : a.length + c + 4 = a.length + (c + 4) := by omega
  rw [e, List.drop_append]

/-- Auxiliary form of the localization lemma, with an explicit bound on
the range size for the strong induction. -/
theorem parse_range_append_aux (a buf marker : List Nat) :
    ∀ (n c l : Nat), l - c ≤ n →
      parse_range (a ++ buf) (a.length + c) (a.length + l) marker =
        parse_range buf c l marker := by
  intro n
  induction n with
  | zero =>
    intro c l hn
    have hg : ¬ c + 8 ≤ l := by omega
    have hg' : ¬ a.length + c + 8 ≤ a.length + l := by omega
    rw [parse_range_guard_fail _ _ _ _ hg', parse_range_guard_fail _ _ _ _ hg]
  | succ n ih =>
    intro c l hn
    by_cases hg : c + 8 ≤ l
    · have hg' : a.length + c + 8 ≤ a.length + l := by omega
      have he : effSize (a ++ buf) (a.length + c) (a.length + l) = effSize buf c l :=
        effSize_append a buf c l
      by_cases hbad : effSize buf c l < 8 ∨ c + effSize buf c l > l
      · have hbad' : effSize (a ++ buf) (a.length + c) (a.length + l) < 8 ∨
            a.length + c + effSize (a ++ buf) (a.length + c) (a.length + l) > a.length + l := by
          rw [he]; omega
        rw [parse_range_invalid _ _ _ _ hg' hbad', parse_range_invalid _ _ _ _ hg hbad]
      · have hok := hbad
        have hok' : ¬ (effSize (a ++ buf) (a.length + c) (a.length + l) < 8 ∨
            a.length + c + effSize (a ++ buf) (a.length + c) (a.length + l) > a.length + l) := by
          rw [he]; omega
        have hk : kindAt (a ++ buf) (a.length + c) = kindAt buf c := kindAt_append a buf c
        by_cases hm : kindAt buf c = marker
        · have hm' : kindAt (a ++ buf) (a.length + c) = marker := by rw [hk, hm]
          rw [parse_range_match _ _ _ _ hg' hok' hm', parse_range_match _ _ _ _ hg hok hm, he]
          have e : a.length + c + 8 = a.length + (c + 8) := by omega
          rw [e, List.drop_append]
        · have hm' : kindAt (a ++ buf) (a.length + c) ≠ marker := by rw [hk]; exact hm
          have eskip : parse_range (a ++ buf)
              (a.length + c + effSize (a ++ buf) (a.length + c) (a.length + l))
              (a.length + l) marker = parse_range buf (c + effSize buf c l) l marker := by
            rw [he]
            have e : a.length + c + effSize buf c l = a.length + (c + effSize buf c l) := by
              omega
            rw [e]
            exact ih _ _ (by omega)
          by_cases hse : isSampleEntryKind (kindAt buf c) = true
          · have hse' : isSampleEntryKind (kindAt (a ++ buf) (a.length + c)) = true := by
              rw [hk]; exact hse
            by_cases hb : c + 8 + VIDEO_SAMPLE_ENTRY_FIELDS_LEN < c + effSize buf c l
            · have hb' : a.length + c + 8 + VIDEO_SAMPLE_ENTRY_FIELDS_LEN <
                  a.length + c + effSize (a ++ buf) (a.length + c) (a.length + l) := by
                rw [he]; omega
              have einner : parse_range (a ++ buf)
                  (a.length + c + 8 + VIDEO_SAMPLE_ENTRY_FIELDS_LEN)
                  (a.length + c + effSize (a ++ buf) (a.length + c) (a.length + l)) marker =
                  parse_range buf (c + 8 + VIDEO_SAMPLE_ENTRY_FIELDS_LEN)
                    (c + effSize buf c l) marker := by
                rw [he]
                have e1 : a.length + c + 8 + VIDEO_SAMPLE_ENTRY_FIELDS_LEN =
                    a.length + (c + 8 + VIDEO_SAMPLE_ENTRY_FIELDS_LEN) := by omega
                have e2 : a.length + c + effSize buf c l =
                    a.length + (c + effSize buf c l) := by omega
                rw [e1, e2]
                exact ih _ _ (by omega)
              rw [parse_range_sample_entry _ _ _ _ hg' hok' hm' hse' hb',
                  parse_range_sample_entry _ _ _ _ hg hok hm hse hb, einner, eskip]
            · have hb' : ¬ a.length + c + 8 + VIDEO_SAMPLE_ENTRY_FIELDS_LEN <
                  a.length + c + effSize (a ++ buf) (a.length + c) (a.length + l) := by
                rw [he]; omega
              rw [parse_range_sample_entry_nofit _ _ _ _ hg' hok' hm' hse' hb',
                  parse_range_sample_entry_nofit _ _ _ _ hg hok hm hse hb, eskip]
          · have hse' : ¬ isSampleEntryKind (kindAt (a ++ buf) (a.length + c)) = true := by
              rw [hk]; exact hse
            by_cases hc : isContainerKind (kindAt buf c) = true
            · have hc' : isContainerKind (kindAt (a ++ buf) (a.length + c)) = true := by
                rw [hk]; exact hc
              by_cases hb : c + 8 < c + effSize buf c l
              · have hb' : a.length + c + 8 <
                    a.length + c + effSize (a ++ buf) (a.length + c) (a.length + l) := by
                  rw [he]; omega
                have einner : parse_range (a ++ buf) (a.length + c + 8)
                    (a.length + c + effSize (a ++ buf) (a.length + c) (a.length + l)) marker =
                    parse_range buf (c + 8) (c + effSize buf c l) marker := by
                  rw [he]
                  have e1 : a.length + c + 8 = a.length + (c + 8) := by omega
                  have e2 : a.length + c + effSize buf c l =
                      a.length + (c + effSize buf c l) := by omega
                  rw [e1, e2]
                  exact ih _ _ (by omega)
                rw [parse_range_container _ _ _ _ hg' hok' hm' hse' hc' hb',
                    parse_range_container _ _ _ _ hg hok hm hse hc hb, einner, eskip]
              · have hb' : ¬ a.length + c + 8 <
                    a.length + c + effSize (a ++ buf) (a.length + c) (a.length + l) := by
                  rw [he]; omega
                rw [parse_range_container_nofit _ _ _ _ hg' hok' hm' hse' hc' hb',
                    parse_range_container_nofit _ _ _ _ hg hok hm hse hc hb, eskip]
            · have hc' : ¬ isContainerKind (kindAt (a ++ buf) (a.length + c)) = true := by
                rw [hk]; exact hc
              rw [parse_range_skip _ _ _ _ hg' hok' hm' hse' hc',
                  parse_range_skip _ _ _ _ hg hok hm hse hc, eskip]
    · have hg' : ¬ a.length + c + 8 ≤ a.length + l := by omega
      rw [parse_range_guard_fail _ _ _ _ hg', parse_range_guard_fail _ _ _ _ (by omega)]

/-- Localization: scanning a sub-range that lies entirely after a fixed
prefix only depends on the suffix.  This is the formal counterpart of
the spec's remark that the walker operates on a byte range `(start,
end)` with all bounds-checking local. -/
theorem parse_range_append (a buf marker : List Nat) (c l : Nat) :
    parse_range (a ++ buf) (a.length + c) (a.length + l) marker =
      parse_range buf c l marker :=
  parse_range_append_aux a buf marker (l - c) c l le_rfl

/-! ### Lemmas about concretely built records -/

/-- A big-endian length field is 4 bytes. -/
theorem length_be32 (n : Nat) : (be32 n).length = 4 := by
  simp [be32]

/-- Reading back a 4-byte big-endian encoding below `2^32` gives the
encoded value. -/
theorem readBE32_be32 (n : Nat) (rest : List Nat) (h : n < 4294967296) :
    readBE32 (be32 n ++ rest) 0 = n := by
  simp [readBE32, getByte, be32]
  omega

/-- Dropping the 4-byte length field. -/
theorem drop4_be32 (n : Nat) (rest : List Nat) : (be32 n ++ rest).drop 4 = rest := by
  simp [be32]

/-- Dropping the full 8-byte header leaves the bytes after the tag. -/
theorem drop8_be32 (n : Nat) (rest : List Nat) : (be32 n ++ rest).drop 8 = rest.drop 4 := by
  simp [be32]

/-- Taking exactly the length of a prefix returns the prefix. -/
theorem take_len_append (p rest : List Nat) (n : Nat) (h : p.length = n) :
    (p ++ rest).take n = p := by
  rw [← h]
  exact List.take_left p rest

/-- Dropping exactly the length of a prefix returns the suffix. -/
theorem drop_len_append (p rest : List Nat) (n : Nat) (h : p.length = n) :
    (p ++ rest).drop n = rest := by
  rw [← h]
  exact List.drop_left p rest

/-- The effective size of a record whose declared length is a nonzero
value below `2^32`. -/
theorem effSize_front (L : Nat) (X : List Nat) (l : Nat) (h0 : L ≠ 0)
    (h32 : L < 4294967296) : effSize (be32 L ++ X) 0 l = L := by
  simp [effSize, readBE32_be32 L X h32, h0]

/-- The tag of a record sitting at the front of the buffer. -/
theorem kindAt_front (L : Nat) (tag X : List Nat) (h : tag.length = 4) :
    kindAt (be32 L ++ (tag ++ X)) 0 = tag := by
  unfold kindAt
  simp only [Nat.zero_add]
  rw [drop4_be32, take_len_append tag X 4 h]

/-- Scanning a range that starts with a valid matching record returns
the record's payload: the `L - 8` bytes after its 8-byte header. -/
theorem parse_range_front_match (marker X : List Nat) (L l : Nat)
    (hlen : marker.length = 4) (h32 : L < 4294967296)
    (hL8 : 8 ≤ L) (hLl : L ≤ l) :
    parse_range (be32 L ++ (marker ++ X)) 0 l marker = some (X.take (L - 8)) := by
  have h0 : L ≠ 0 := by omega
  have heff : effSize (be32 L ++ (marker ++ X)) 0 l = L := effSize_front L _ l h0 h32
  have hg : 0 + 8 ≤ l := by omega
  have hok : ¬ (effSize (be32 L ++ (marker ++ X)) 0 l < 8 ∨
      0 + effSize (be32 L ++ (marker ++ X)) 0 l > l) := by
    rw [heff]; omega
  have hm : kindAt (be32 L ++ (marker ++ X)) 0 = marker := kindAt_front L marker X hlen
  rw [parse_range_match _ _ _ _ hg hok hm, heff]
  simp only [Nat.zero_add]
  rw [drop8_be32, drop_len_append marker X 4 hlen]

/-- The length of a built box. -/
theorem length_mkBox (tag payload : List Nat) (h : tag.length = 4) :
    (mkBox tag payload).length = 8 + payload.length := by
  simp [mkBox, h, length_be32]
  omega

/-- A built box in suffix-associated form. -/
theorem mkBox_assoc (tag payload : List Nat) :
    mkBox tag payload = be32 (8 + payload.length) ++ (tag ++ payload) := by
  simp [mkBox, List.append_assoc]

/-- The walker returns the payload of a well-formed target record placed
first in the buffer, whatever follows it (first match wins). -/
theorem find_box_payload_first (marker p rest : List Nat) (hlen : marker.length = 4)
    (h32 : 8 + p.length < 4294967296) :
    find_box_payload (mkBox marker p ++ rest) marker = some p := by
  unfold find_box_payload
  rw [mkBox_assoc, List.append_assoc, List.append_assoc]
  have hlb : (be32 (8 + p.length) ++ (marker ++ (p ++ rest))).length =
      8 + p.length + rest.length := by
    simp [length_be32, hlen]
    omega
  rw [hlb, parse_range_front_match marker (p ++ rest) (8 + p.length)
    (8 + p.length + rest.length) hlen h32 (by omega) (by omega)]
  congr 1
  have e : 8 + p.length - 8 = p.length := by omega
  rw [e]
  exact List.take_left p rest

/-- Scanning a range past a fixed prefix that covers exactly the rest of
a buffer is scanning the suffix as a whole buffer. -/
theorem parse_range_whole (a buf marker : List Nat) :
    parse_range (a ++ buf) a.length (a.length + buf.length) marker =
      find_box_payload buf marker := by
  have h := parse_range_append a buf marker 0 buf.length
  rw [Nat.add_zero] at h
  rw [h]
  rfl

/-- Container tags are 4 bytes. -/
theorem containerKind_length (k : List Nat) (h : isContainerKind k = true) : k.length = 4 := by
  have h' := of_decide_eq_true h
  rcases h' with rfl | rfl | rfl | rfl | rfl <;> rfl

/-- Sample-entry tags are 4 bytes. -/
theorem sampleEntryKind_length (k : List Nat) (h : isSampleEntryKind k = true) :
    k.length = 4 := by
  have h' := of_decide_eq_true h
  rcases h' with rfl | rfl | rfl <;> rfl

/-- No tag is both a container and a sample entry. -/
theorem containerKind_not_sampleEntry (k : List Nat) (h : isContainerKind k = true) :
    isSampleEntryKind k = false := by
  have h' := of_decide_eq_true h
  rcases h' with rfl | rfl | rfl | rfl | rfl <;> rfl

/-- Walking a buffer that starts with a valid non-matching container
box: recurse into the body (restricted to the body's range), and on no
match continue with the bytes after the box. -/
theorem find_container_step (ctag inner rest marker : List Nat)
    (hcont : isContainerKind ctag = true) (hne : ctag ≠ marker)
    (hpos : 0 < inner.length) (h32 : 8 + inner.length < 4294967296) :
    find_box_payload (mkBox ctag inner ++ rest) marker =
      (match parse_range (inner ++ rest) 0 inner.length marker with
       | some r => some r
       | none => find_box_payload rest marker) := by
  have hct4 : ctag.length = 4 := containerKind_length ctag hcont
  unfold find_box_payload
  have hexp : mkBox ctag inner ++ rest =
      be32 (8 + inner.length) ++ (ctag ++ (inner ++ rest)) := by
    rw [mkBox_assoc]
    simp [List.append_assoc]
  have hBtot : (mkBox ctag inner ++ rest).length = 8 + inner.length + rest.length := by
    simp [length_mkBox ctag inner hct4]
  rw [hBtot, hexp]
  have heff : effSize (be32 (8 + inner.length) ++ (ctag ++ (inner ++ rest))) 0
      (8 + inner.length + rest.length) = 8 + inner.length :=
    effSize_front _ _ _ (by omega) (by omega)
  have hg : (0 : Nat) + 8 ≤ 8 + inner.length + rest.length := by omega
  have hok : ¬ (effSize (be32 (8 + inner.length) ++ (ctag ++ (inner ++ rest))) 0
      (8 + inner.length + rest.length) < 8 ∨
      0 + effSize (be32 (8 + inner.length) ++ (ctag ++ (inner ++ rest))) 0
        (8 + inner.length + rest.length) > 8 + inner.length + rest.length) := by
    rw [heff]; omega
  have hkind : kindAt (be32 (8 + inner.length) ++ (ctag ++ (inner ++ rest))) 0 = ctag :=
    kindAt_front _ _ _ hct4
  have hm : kindAt (be32 (8 + inner.length) ++ (ctag ++ (inner ++ rest))) 0 ≠ marker := by
    rw [hkind]; exact hne
  have hs : ¬ isSampleEntryKind
      (kindAt (be32 (8 + inner.length) ++ (ctag ++ (inner ++ rest))) 0) = true := by
    rw [hkind, containerKind_not_sampleEntry ctag hcont]
    simp
  have hc : isContainerKind
      (kindAt (be32 (8 + inner.length) ++ (ctag ++ (inner ++ rest))) 0) = true := by
    rw [hkind]; exact hcont
  have hb : 0 + 8 < 0 + effSize (be32 (8 + inner.length) ++ (ctag ++ (inner ++ rest))) 0
      (8 + inner.length + rest.length) := by
    rw [heff]; omega
  rw [parse_range_container _ _ _ _ hg hok hm hs hc hb, heff]
  simp only [Nat.zero_add]
  have key := parse_range_append (be32 (8 + inner.length) ++ ctag) (inner ++ rest) marker
    0 inner.length
  have ha : (be32 (8 + inner.length) ++ ctag).length = 8 := by
    simp [length_be32, hct4]
  rw [Nat.add_zero, ha, List.append_assoc] at key
  rw [key]
  have key2 := parse_range_whole (mkBox ctag inner) rest marker
  unfold find_box_payload at key2
  have ha2 : (mkBox ctag inner).length = 8 + inner.length := length_mkBox ctag inner hct4
  rw [ha2] at key2
  have hexp2 : mkBox ctag inner ++ rest =
      be32 (8 + inner.length) ++ (ctag ++ (inner ++ rest)) := hexp
  rw [hexp2] at key2
  rw [key2]

/-- Walking a buffer that starts with a valid non-matching sample-entry
box: recurse into the body after the fixed 78-byte preamble (restricted
to the body's range), and on no match continue with the bytes after the
box. -/
theorem find_sample_entry_step (stag body rest marker : List Nat)
    (hse : isSampleEntryKind stag = true) (hne : stag ≠ marker)
    (hbig : VIDEO_SAMPLE_ENTRY_FIELDS_LEN < body.length)
    (h32 : 8 + body.length < 4294967296) :
    find_box_payload (mkBox stag body ++ rest) marker =
      (match parse_range (body ++ rest) VIDEO_SAMPLE_ENTRY_FIELDS_LEN body.length marker with
       | some r => some r
       | none => find_box_payload rest marker) := by
  have hst4 : stag.length = 4 := sampleEntryKind_length stag hse
  unfold find_box_payload
  have hexp : mkBox stag body ++ rest =
      be32 (8 + body.length) ++ (stag ++ (body ++ rest)) := by
    rw [mkBox_assoc]
    simp [List.append_assoc]
  have hBtot : (mkBox stag body ++ rest).length = 8 + body.length + rest.length := by
    simp [length_mkBox stag body hst4]
  rw [hBtot, hexp]
  have heff : effSize (be32 (8 + body.length) ++ (stag ++ (body ++ rest))) 0
      (8 + body.length + rest.length) = 8 + body.length :=
    effSize_front _ _ _ (by omega) (by omega)
  have hg : (0 : Nat) + 8 ≤ 8 + body.length + rest.length := by omega
  have hok : ¬ (effSize (be32 (8 + body.length) ++ (stag ++ (body ++ rest))) 0
      (8 + body.length + rest.length) < 8 ∨
      0 + effSize (be32 (8 + body.length) ++ (stag ++ (body ++ rest))) 0
        (8 + body.length + rest.length) > 8 + body.length + rest.length) := by
    rw [heff]; omega
  have hkind : kindAt (be32 (8 + body.length) ++ (stag ++ (body ++ rest))) 0 = stag :=
    kindAt_front _ _ _ hst4
  have hm : kindAt (be32 (8 + body.length) ++ (stag ++ (body ++ rest))) 0 ≠ marker := by
    rw [hkind]; exact hne
  have hs : isSampleEntryKind
      (kindAt (be32 (8 + body.length) ++ (stag ++ (body ++ rest))) 0) = true := by
    rw [hkind]; exact hse
  have hb : 0 + 8 + VIDEO_SAMPLE_ENTRY_FIELDS_LEN <
      0 + effSize (be32 (8 + body.length) ++ (stag ++ (body ++ rest))) 0
        (8 + body.length + rest.length) := by
    rw [heff]
    unfold VIDEO_SAMPLE_ENTRY_FIELDS_LEN at hbig ⊢
    omega
  rw [parse_range_sample_entry _ _ _ _ hg hok hm hs hb, heff]
  simp only [Nat.zero_add]
  have key := parse_range_append (be32 (8 + body.length) ++ stag) (body ++ rest) marker
    VIDEO_SAMPLE_ENTRY_FIELDS_LEN body.length
  have ha : (be32 (8 + body.length) ++ stag).length = 8 := by
    simp [length_be32, hst4]
  rw [ha, List.append_assoc] at key
  rw [key]
  have key2 := parse_range_whole (mkBox stag body) rest marker
  unfold find_box_payload at key2
  have ha2 : (mkBox stag body).length = 8 + body.length := length_mkBox stag body hst4
  rw [ha2, hexp] at key2
  rw [key2]

/-- A lone well-formed target record yields its payload. -/
theorem walk_direct (marker p : List Nat) (hlen : marker.length = 4)
    (h32 : 8 + p.length < 4294967296) :
    find_box_payload (mkBox marker p) marker = some p := by
  have h := find_box_payload_first marker p [] hlen h32
  simpa using h

/-- A target record with declared length `0` extends to the end of the
enclosing range: its payload is everything after the 8-byte header. -/
theorem walk_zero_size (marker p : List Nat) (hlen : marker.length = 4) :
    find_box_payload (be32 0 ++ (marker ++ p)) marker = some p := by
  unfold find_box_payload
  have hlb : (be32 0 ++ (marker ++ p)).length = 8 + p.length := by
    simp [length_be32, hlen]
    omega
  rw [hlb]
  have hread : readBE32 (be32 0 ++ (marker ++ p)) 0 = 0 := readBE32_be32 0 _ (by norm_num)
  have heff : effSize (be32 0 ++ (marker ++ p)) 0 (8 + p.length) = 8 + p.length := by
    simp [effSize, hread]
  have hg : (0 : Nat) + 8 ≤ 8 + p.length := by omega
  have hok : ¬ (effSize (be32 0 ++ (marker ++ p)) 0 (8 + p.length) < 8 ∨
      0 + effSize (be32 0 ++ (marker ++ p)) 0 (8 + p.length) > 8 + p.length) := by
    rw [heff]; omega
  have hm : kindAt (be32 0 ++ (marker ++ p)) 0 = marker := kindAt_front 0 marker p hlen
  rw [parse_range_match _ _ _ _ hg hok hm, heff]
  simp only [Nat.zero_add]
  rw [drop8_be32, drop_len_append marker p 4 hlen]
  have e : 8 + p.length - 8 = p.length := by omega
  rw [e, List.take_length]

/-- The payload of a target record nested directly inside a generic
container box is found. -/
theorem walk_in_container (marker p ctag : List Nat) (hlen : marker.length = 4)
    (hcont : isContainerKind ctag = true) (hne : ctag ≠ marker)
    (h32 : 16 + p.length < 4294967296) :
    find_box_payload (mkBox ctag (mkBox marker p)) marker = some p := by
  have hil : (mkBox marker p).length = 8 + p.length := length_mkBox marker p hlen
  have step := find_container_step ctag (mkBox marker p) [] marker hcont hne
    (by rw [hil]; omega) (by rw [hil]; omega)
  rw [List.append_nil] at step
  rw [step, List.append_nil]
  rw [show parse_range (mkBox marker p) 0 (mkBox marker p).length marker =
        find_box_payload (mkBox marker p) marker from rfl,
      walk_direct marker p hlen (by omega)]

/-- The payload of a target record nested inside a sample-entry box
after its fixed 78-byte preamble is found. -/
theorem walk_in_sample_entry (marker p stag pre : List Nat) (hlen : marker.length = 4)
    (hse : isSampleEntryKind stag = true) (hne : stag ≠ marker)
    (hpre : pre.length = VIDEO_SAMPLE_ENTRY_FIELDS_LEN)
    (h32 : 94 + p.length < 4294967296) :
    find_box_payload (mkBox stag (pre ++ mkBox marker p)) marker = some p := by
  have hil : (mkBox marker p).length = 8 + p.length := length_mkBox marker p hlen
  have hV : VIDEO_SAMPLE_ENTRY_FIELDS_LEN = 78 := rfl
  have hbl : (pre ++ mkBox marker p).length =
      VIDEO_SAMPLE_ENTRY_FIELDS_LEN + (8 + p.length) := by
    simp [hpre, hil]
  have step := find_sample_entry_step stag (pre ++ mkBox marker p) [] marker hse hne
    (by rw [hbl]; omega) (by rw [hbl, hV]; omega)
  rw [List.append_nil] at step
  rw [step, List.append_nil]
  have key := parse_range_whole pre (mkBox marker p) marker
  rw [hpre, hil] at key
  rw [hbl, key, walk_direct marker p hlen (by omega)]

/-- With two sibling target records, the first (leftmost) payload is
returned. -/
theorem walk_first_match (marker p1 p2 : List Nat) (hlen : marker.length = 4)
    (h32 : 8 + p1.length < 4294967296) :
    find_box_payload (mkBox marker p1 ++ mkBox marker p2) marker = some p1 :=
  find_box_payload_first marker p1 (mkBox marker p2) hlen h32

/-- A target nested in a container is preferred over a later sibling of
the container: depth-first order. -/
theorem walk_depth_first (marker p1 p2 ctag : List Nat) (hlen : marker.length = 4)
    (hcont : isContainerKind ctag = true) (hne : ctag ≠ marker)
    (h32 : 16 + p1.length < 4294967296) :
    find_box_payload (mkBox ctag (mkBox marker p1) ++ mkBox marker p2) marker = some p1 := by
  have hil : (mkBox marker p1).length = 8 + p1.length := length_mkBox marker p1 hlen
  have step := find_container_step ctag (mkBox marker p1) (mkBox marker p2) marker hcont hne
    (by rw [hil]; omega) (by rw [hil]; omega)
  rw [step, hil]
  have hshape : mkBox marker p1 ++ mkBox marker p2 =
      be32 (8 + p1.length) ++ (marker ++ (p1 ++ mkBox marker p2)) := by
    rw [mkBox_assoc]
    simp [List.append_assoc]
  have hfm := parse_range_front_match marker (p1 ++ mkBox marker p2) (8 + p1.length)
    (8 + p1.length) hlen (by omega) (by omega) le_rfl
  rw [hshape, hfm]
  have e : 8 + p1.length - 8 = p1.length := by omega
  rw [e, take_len_append p1 _ _ rfl]

/-! ### Claims about the box walker and codec detector -/

/-- C1: for every buffer and target marker, `find_box_payload` returns
`none` on: the empty buffer; any buffer shorter than 8 bytes; any buffer
whose (first) record declares an effective length exceeding the
enclosing range; any buffer whose (first) record declares a length below
8.  (Absence of panics and of out-of-range reads is inherent to the
embedding: `parse_range` is a total function over total list
operations.) -/
theorem claim_C1_box_walker_safe (buf marker : List Nat) :
    find_box_payload [] marker = none
  ∧ (buf.length < 8 → find_box_payload buf marker = none)
  ∧ (8 ≤ buf.length → buf.length < effSize buf 0 buf.length →
      find_box_payload buf marker = none)
  ∧ (8 ≤ buf.length → effSize buf 0 buf.length < 8 →
      find_box_payload buf marker = none) := by
  refine ⟨?_, ?_, ?_, ?_⟩
  · exact parse_range_guard_fail _ _ _ _ (by simp)
  · intro h
    exact parse_range_guard_fail _ _ _ _ (by omega)
  · intro h8 hbig
    exact parse_range_invalid _ _ _ _ (by omega) (Or.inr (by omega))
  · intro h8 hsmall
    exact parse_range_invalid _ _ _ _ (by omega) (Or.inl hsmall)

/-- Witness for C1: a 3-byte buffer, a record declaring length 256 in a
9-byte buffer, and a record declaring length 4, are all rejected. -/
theorem claim_C1_box_walker_safe_witness :
    find_box_payload [1, 2, 3] avcCTag = none
  ∧ find_box_payload [0, 0, 1, 0, 120, 120, 120, 120, 0] avcCTag = none
  ∧ find_box_payload [0, 0, 0, 4, 120, 120, 120, 120] avcCTag = none :=
  ⟨(claim_C1_box_walker_safe [1, 2, 3] avcCTag).2.1 (by decide),
   (claim_C1_box_walker_safe [0, 0, 1, 0, 120, 120, 120, 120, 0] avcCTag).2.2.1
     (by decide) (by decide),
   (claim_C1_box_walker_safe [0, 0, 0, 4, 120, 120, 120, 120] avcCTag).2.2.2
     (by decide) (by decide)⟩

/-- C2: a target record with declared length `8 + N` yields exactly its
`N` payload bytes, whether top-level, nested in any generic container
box, or nested in any sample-entry box after the fixed 78-byte preamble;
a declared length of exactly `0` extends the record to the end of the
enclosing range; and the first match in left-to-right depth-first order
wins. -/
theorem claim_C2_box_walker_functional (marker : List Nat) (hlen : marker.length = 4) :
    (∀ p : List Nat, 8 + p.length < 4294967296 →
      find_box_payload (mkBox marker p) marker = some p)
  ∧ (∀ p ctag : List Nat, isContainerKind ctag = true → ctag ≠ marker →
      16 + p.length < 4294967296 →
      find_box_payload (mkBox ctag (mkBox marker p)) marker = some p)
  ∧ (∀ p stag pre : List Nat, isSampleEntryKind stag = true → stag ≠ marker →
      pre.length = VIDEO_SAMPLE_ENTRY_FIELDS_LEN → 94 + p.length < 4294967296 →
      find_box_payload (mkBox stag (pre ++ mkBox marker p)) marker = some p)
  ∧ (∀ p : List Nat, find_box_payload (be32 0 ++ (marker ++ p)) marker = some p)
  ∧ (∀ p1 p2 : List Nat, 8 + p1.length < 4294967296 →
      find_box_payload (mkBox marker p1 ++ mkBox marker p2) marker = some p1)
  ∧ (∀ p1 p2 ctag : List Nat, isContainerKind ctag = true → ctag ≠ marker →
      16 + p1.length < 4294967296 →
      find_box_payload (mkBox ctag (mkBox marker p1) ++ mkBox marker p2) marker = some p1) :=
  ⟨fun p h32 => walk_direct marker p hlen h32,
   fun p ctag hcont hne h32 => walk_in_container marker p ctag hlen hcont hne h32,
   fun p stag pre hse hne hpre h32 => walk_in_sample_entry marker p stag pre hlen hse hne hpre h32,
   fun p => walk_zero_size marker p hlen,
   fun p1 p2 h32 => walk_first_match marker p1 p2 hlen h32,
   fun p1 p2 ctag hcont hne h32 => walk_depth_first marker p1 p2 ctag hlen hcont hne h32⟩

/-- Witness for C2 at the `avcC` marker with concrete payloads, each
container kind instantiated concretely. -/
theorem claim_C2_box_walker_functional_witness :
    find_box_payload (mkBox avcCTag [222]) avcCTag = some [222]
  ∧ find_box_payload (mkBox stsdTag (mkBox avcCTag [222])) avcCTag = some [222]
  ∧ find_box_payload (mkBox avc1Tag (List.replicate 78 0 ++ mkBox avcCTag [222])) avcCTag =
      some [222]
  ∧ find_box_payload (be32 0 ++ (avcCTag ++ [222])) avcCTag = some [222]
  ∧ find_box_payload (mkBox avcCTag [1] ++ mkBox avcCTag [2]) avcCTag = some [1]
  ∧ find_box_payload (mkBox trakTag (mkBox avcCTag [1]) ++ mkBox avcCTag [2]) avcCTag =
      some [1] := by
  have h := claim_C2_box_walker_functional avcCTag (by decide)
  exact ⟨h.1 [222] (by decide),
         h.2.1 [222] stsdTag (by decide) (by decide) (by decide),
         h.2.2.1 [222] avc1Tag (List.replicate 78 0) (by decide) (by decide) (by decide)
           (by decide),
         h.2.2.2.1 [222],
         h.2.2.2.2.1 [1] [2] (by decide),
         h.2.2.2.2.2 [1] [2] trakTag (by decide) (by decide) (by decide)⟩

/-- Counterexample to C3 as stated: a malformed sibling record (declared
length 4) aborts the scan of its enclosing range, so a well-formed
target record following it in the same enclosing range is NOT found,
even though that target alone is found. -/
theorem claim_C3_error_absorption_counterexample :
    find_box_payload ([0, 0, 0, 4, 120, 120, 120, 120] ++ mkBox avcCTag [170]) avcCTag = none
  ∧ find_box_payload (mkBox avcCTag [170]) avcCTag = some [170] := by
  constructor
  · exact parse_range_invalid _ 0 _ _ (by decide) (Or.inl (by decide))
  · exact walk_direct avcCTag [170] (by decide) (by decide)

/-- C3 (amended): a malformed record (declared length below 8) is
absorbed as "no match" for its own enclosing range — never a hard error
— and a well-formed target outside that enclosing range, here a sibling
following the container whose body holds the malformed record, is still
found. -/
theorem claim_C3_error_absorption_amended (marker p junk ctag : List Nat) (k : Nat)
    (hlen : marker.length = 4) (hcont : isContainerKind ctag = true) (hne : ctag ≠ marker)
    (hj : junk.length = 4) (hk0 : k ≠ 0) (hk8 : k < 8)
    (h32 : 8 + p.length < 4294967296) :
    find_box_payload (mkBox ctag ([0, 0, 0, k] ++ junk) ++ mkBox marker p) marker = some p := by
  have hbadlen : ([0, 0, 0, k] ++ junk).length = 8 := by simp [hj]
  have step := find_container_step ctag ([0, 0, 0, k] ++ junk) (mkBox marker p) marker
    hcont hne (by rw [hbadlen]; omega) (by rw [hbadlen]; omega)
  rw [step, hbadlen]
  have hshape : [0, 0, 0, k] ++ junk ++ mkBox marker p =
      0 :: 0 :: 0 :: k :: (junk ++ mkBox marker p) := by simp
  have hread : readBE32 (0 :: 0 :: 0 :: k :: (junk ++ mkBox marker p)) 0 = k := by
    simp [readBE32, getByte]
  have heff : effSize ([0, 0, 0, k] ++ junk ++ mkBox marker p) 0 8 = k := by
    unfold effSize
    rw [hshape, hread]
    simp [hk0]
  rw [parse_range_invalid _ 0 8 marker (by omega) (Or.inl (by rw [heff]; omega))]
  show find_box_payload (mkBox marker p) marker = some p
  exact walk_direct marker p hlen h32

/-- Witness for the amended C3 at concrete inputs: a `stsd` container
holding a record of declared length 4, followed by a well-formed target
sibling. -/
theorem claim_C3_error_absorption_amended_witness :
    find_box_payload (mkBox stsdTag ([0, 0, 0, 4] ++ [120, 120, 120, 120]) ++
      mkBox avcCTag [170]) avcCTag = some [170] :=
  claim_C3_error_absorption_amended avcCTag [170] [120, 120, 120, 120] stsdTag 4
    (by decide) (by decide) (by decide) (by decide) (by decide) (by decide) (by decide)

/-- C5: `detect_codec` returns `H265` exactly when the buffer has at
least 8 bytes and bytes 4..8 spell `hvc1`; `H264` for every other buffer
of at least 8 bytes; `Unknown` exactly when the buffer is shorter than
8 bytes. -/
theorem claim_C5_detect_codec (avcc : List Nat) :
    (detect_codec avcc = VideoCodec.H265 ↔
      8 ≤ avcc.length ∧ (avcc.drop 4).take 4 = hvc1Tag)
  ∧ (detect_codec avcc = VideoCodec.H264 ↔
      8 ≤ avcc.length ∧ (avcc.drop 4).take 4 ≠ hvc1Tag)
  ∧ (detect_codec avcc = VideoCodec.Unknown ↔ avcc.length < 8) := by
  unfold detect_codec
  by_cases h8 : 8 ≤ avcc.length
  · by_cases hh : (avcc.drop 4).take 4 = hvc1Tag <;> simp [h8, hh]
  · simp [h8]
    omega

/-- C6: `extract_codec_record` returns the header verbatim whenever its
first byte is 1, for every codec family; otherwise it returns `none` for
the `Unknown` family and delegates to the box walker with the
family-specific marker (`avcC` for H264, `hvcC` for H265). -/
theorem claim_C6_extract_codec_record (header : List Nat) (codec : VideoCodec) :
    (header.head? = some 1 → extract_codec_record header codec = some header)
  ∧ (header.head? ≠ some 1 →
      extract_codec_record header VideoCodec.Unknown = none
    ∧ extract_codec_record header VideoCodec.H264 = find_box_payload header avcCTag
    ∧ extract_codec_record header VideoCodec.H265 = find_box_payload header hvcCTag) := by
  unfold extract_codec_record
  constructor
  · intro h
    simp [h]
  · intro h
    simp [h]

/-- Witness for C6: a header starting with byte 1 is returned verbatim
even for the H265 family; a header not starting with 1 yields `none` for
the `Unknown` family. -/
theorem claim_C6_extract_codec_record_witness :
    extract_codec_record [1, 100, 0, 31] VideoCodec.H265 = some [1, 100, 0, 31]
  ∧ extract_codec_record [2] VideoCodec.Unknown = none :=
  ⟨(claim_C6_extract_codec_record [1, 100, 0, 31] VideoCodec.H265).1 (by decide),
   ((claim_C6_extract_codec_record [2] VideoCodec.Unknown).2 (by decide)).1⟩

/-- C10: for every record accepted by the validity check of
`parse_range`, the effective size is at least 8 — so the scanning loop
advances the cursor by at least 8 bytes and strictly shrinks the
remaining range — and both recursive descents (container body at offset
8, sample-entry body at offset `8 + 78`) operate on a strictly smaller
byte range than their caller; this is the measure `limit - cursor` by
which the embedding `parse_range` is accepted as a total function. -/
theorem claim_C10_box_walker_terminates (buf : List Nat) (cursor limit : Nat)
    (hg : cursor + 8 ≤ limit)
    (hok : ¬ (effSize buf cursor limit < 8 ∨ cursor + effSize buf cursor limit > limit)) :
    8 ≤ effSize buf cursor limit
  ∧ limit - (cursor + effSize buf cursor limit) < limit - cursor
  ∧ (cursor + effSize buf cursor limit) - (cursor + 8) < limit - cursor
  ∧ (cursor + effSize buf cursor limit) - (cursor + 8 + VIDEO_SAMPLE_ENTRY_FIELDS_LEN) <
      limit - cursor := by
  refine ⟨?_, ?_, ?_, ?_⟩ <;> omega

/-- Witness for C10 at a concrete 9-byte record of declared length 9. -/
theorem claim_C10_box_walker_terminates_witness :
    8 ≤ effSize [0, 0, 0, 9, 97, 118, 99, 67, 170] 0 9
  ∧ 9 - (0 + effSize [0, 0, 0, 9, 97, 118, 99, 67, 170] 0 9) < 9 - 0
  ∧ (0 + effSize [0, 0, 0, 9, 97, 118, 99, 67, 170] 0 9) - (0 + 8) < 9 - 0
  ∧ (0 + effSize [0, 0, 0, 9, 97, 118, 99, 67, 170] 0 9) -
      (0 + 8 + VIDEO_SAMPLE_ENTRY_FIELDS_LEN) < 9 - 0 :=
  claim_C10_box_walker_terminates [0, 0, 0, 9, 97, 118, 99, 67, 170] 0 9
    (by decide) (by decide)

/-! ### Lemmas about the message decoders -/

/-- Reading a `u32` field that is present as an in-range natural. -/
theorem getU32_lookup_nat (v : Value) (k : String) (code : Nat)
    (hl : v.lookup k = some (Value.int (code : Int))) (h32 : code < 4294967296) :
    getU32 v k = Except.ok code := by
  unfold getU32
  rw [hl]
  show (if 0 ≤ (code : Int) ∧ (code : Int) < 4294967296 then Except.ok ((code : Int)).toNat
        else Except.error ("invalid value for field " ++ k)) = Except.ok code
  rw [if_pos ⟨Int.ofNat_nonneg code, by exact_mod_cast h32⟩]
  simp

/-- A successful `u32` field read means the field was present with
exactly that integer value. -/
theorem getU32_ok (v : Value) (k : String) (tag : Nat)
    (h : getU32 v k = Except.ok tag) :
    v.lookup k = some (Value.int (tag : Int)) := by
  unfold getU32 at h
  split at h
  · rename_i n heq
    split at h
    · rename_i hcond
      injection h with h2
      rw [heq, ← h2, Int.toNat_of_nonneg hcond.1]
    · exact absurd h (by simp)
  · exact absurd h (by simp)
  · exact absurd h (by simp)

/-- Reading an optional `u64` field that is absent. -/
theorem getOptU64_none (v : Value) (k : String) (hl : v.lookup k = none) :
    getOptU64 v k = Except.ok none := by
  unfold getOptU64
  rw [hl]

/-- Reading an optional `u64` field that is present as an in-range
natural. -/
theorem getOptU64_lookup_nat (v : Value) (k : String) (i : Nat)
    (hl : v.lookup k = some (Value.int (i : Int))) (h64 : i < 18446744073709551616) :
    getOptU64 v k = Except.ok (some i) := by
  unfold getOptU64
  rw [hl]
  show (if 0 ≤ (i : Int) ∧ (i : Int) < 18446744073709551616 then
          Except.ok (some ((i : Int)).toNat)
        else Except.error ("invalid value for field " ++ k)) = Except.ok (some i)
  rw [if_pos ⟨Int.ofNat_nonneg i, by exact_mod_cast h64⟩]
  simp

/-- A body with no `name` field cannot decode as `SenderInfo`: the first
required field is already missing. -/
theorem decodeSenderInfo_missing_name (v : Value) (h : v.lookup "name" = none) :
    decodeSenderInfo v = Except.error ("missing field " ++ "name") := by
  have hn : getStr v "name" = Except.error ("missing field " ++ "name") := by
    unfold getStr
    rw [h]
  unfold decodeSenderInfo
  rw [hn]
  rfl

/-- Sequence decoding fails with the first failing element's error, even
when every earlier element decodes successfully. -/
theorem decodeStreamElems_append (pre : List Value) (v : Value) (post : List Value)
    (e : String) (hv : decodeStreamRequest v = Except.error e)
    (hpre : ∀ x ∈ pre, ∃ r, decodeStreamRequest x = Except.ok r) :
    decodeStreamElems (pre ++ v :: post) = Except.error e := by
  induction pre with
  | nil =>
    simp [decodeStreamElems, hv]
  | cons x xs ih =>
    obtain ⟨r, hr⟩ := hpre x (by simp)
    have hrest := ih (fun y hy => hpre y (by simp [hy]))
    simp [decodeStreamElems, hr, hrest]

/-- An element whose `type` code is none of 96, 103, 110 fails with the
`unknown stream type` error naming the code. -/
theorem decodeStreamRequest_unknown (v : Value) (code : Nat)
    (hl : v.lookup "type" = some (Value.int (code : Int))) (h32 : code < 4294967296)
    (h1 : code ≠ StreamId.AUDIO_REALTIME) (h2 : code ≠ StreamId.AUDIO_BUFFERED)
    (h3 : code ≠ StreamId.VIDEO) :
    decodeStreamRequest v = Except.error ("unknown stream type " ++ toString code) := by
  have htag := getU32_lookup_nat v "type" code hl h32
  simp [decodeStreamRequest, htag, h1, h2, h3]

/-- A successfully decoded stream request carries on the wire exactly
the `type` code of its variant. -/
theorem decodeStreamRequest_ok_code (v : Value) (req : StreamRequest)
    (h : decodeStreamRequest v = Except.ok req) :
    v.lookup "type" = some (Value.int (streamRequestCode req)) := by
  unfold decodeStreamRequest at h
  split at h
  · exact absurd h (by simp)
  · rename_i tag hg
    have hl := getU32_ok v "type" tag hg
    by_cases t1 : tag = StreamId.AUDIO_REALTIME
    · rw [if_pos t1] at h
      cases hd : decodeAudioRealtimeRequest v <;> rw [hd] at h <;> simp [Except.map] at h
      rename_i r
      rw [hl, ← h]
      simp [streamRequestCode, t1]
    · rw [if_neg t1] at h
      by_cases t2 : tag = StreamId.AUDIO_BUFFERED
      · rw [if_pos t2] at h
        cases hd : decodeAudioBufferedRequest v <;> rw [hd] at h <;> simp [Except.map] at h
        rename_i r
        rw [hl, ← h]
        simp [streamRequestCode, t2]
      · rw [if_neg t2] at h
        by_cases t3 : tag = StreamId.VIDEO
        · rw [if_pos t3] at h
          cases hd : decodeVideoRequest v <;> rw [hd] at h <;> simp [Except.map] at h
          rename_i r
          rw [hl, ← h]
          simp [streamRequestCode, t3]
        · rw [if_neg t3] at h
          exact absurd h (by simp)

/-! ### Claims about the session negotiation model -/

/-- C4: in a streams-phase SETUP body, any element whose `type` code is
not one of 96/103/110 fails with the `unknown stream type` error naming
the code; the whole stream list fails with that same error even when
every other element is valid (fail-fast, no partial acceptance); and the
whole SETUP request is rejected. -/
theorem claim_C4_unknown_stream_type (v : Value) (code : Nat) (pre post : List Value)
    (hl : v.lookup "type" = some (Value.int (code : Int))) (h32 : code < 4294967296)
    (h1 : code ≠ StreamId.AUDIO_REALTIME) (h2 : code ≠ StreamId.AUDIO_BUFFERED)
    (h3 : code ≠ StreamId.VIDEO)
    (hpre : ∀ x ∈ pre, ∃ r, decodeStreamRequest x = Except.ok r) :
    decodeStreamRequest v = Except.error ("unknown stream type " ++ toString code)
  ∧ decodeStreamElems (pre ++ v :: post) =
      Except.error ("unknown stream type " ++ toString code)
  ∧ decodeSetupRequest (Value.obj [("streams", Value.arr (pre ++ v :: post))]) =
      Except.error "data did not match any variant of untagged enum SetupRequest" := by
  have he := decodeStreamRequest_unknown v code hl h32 h1 h2 h3
  have helems := decodeStreamElems_append pre v post _ he hpre
  refine ⟨he, helems, ?_⟩
  have hname : (Value.obj [("streams", Value.arr (pre ++ v :: post))]).lookup "name" =
      none := rfl
  have hsi := decodeSenderInfo_missing_name _ hname
  have hstreams : decodeStreamsVariant (Value.obj [("streams",
      Value.arr (pre ++ v :: post))]) =
      Except.error ("unknown stream type " ++ toString code) := by
    unfold decodeStreamsVariant
    rw [show (Value.obj [("streams", Value.arr (pre ++ v :: post))]).lookup "streams" =
          some (Value.arr (pre ++ v :: post)) from rfl]
    exact helems
  unfold decodeSetupRequest
  rw [hsi, hstreams]

/-- Witness for C4: a stream list holding one valid video element
followed by an element with unknown type code 1. -/
theorem claim_C4_unknown_stream_type_witness :
    decodeStreamRequest (Value.obj [("type", Value.int 1)]) =
      Except.error ("unknown stream type " ++ toString 1)
  ∧ decodeStreamElems
      ([Value.obj [("type", Value.int 110), ("streamConnectionID", Value.int 7),
          ("latencyMs", Value.int 100)]] ++
        Value.obj [("type", Value.int 1)] :: []) =
      Except.error ("unknown stream type " ++ toString 1)
  ∧ decodeSetupRequest (Value.obj [("streams", Value.arr
      ([Value.obj [("type", Value.int 110), ("streamConnectionID", Value.int 7),
          ("latencyMs", Value.int 100)]] ++
        Value.obj [("type", Value.int 1)] :: []))]) =
      Except.error "data did not match any variant of untagged enum SetupRequest" :=
  claim_C4_unknown_stream_type (Value.obj [("type", Value.int 1)]) 1
    [Value.obj [("type", Value.int 110), ("streamConnectionID", Value.int 7),
        ("latencyMs", Value.int 100)]] []
    rfl (by decide) (by decide) (by decide) (by decide)
    (fun x hx => by
      simp at hx
      subst hx
      exact ⟨StreamRequest.Video ⟨7, 100⟩, rfl⟩)

/-- C7: `decodeSetupRequest` dispatches purely structurally, trying the
`SenderInfo` shape first and the `Streams` shape second: every body that
decodes as `SenderInfo` is classified as the sender-info phase (never as
streams), and every body without the distinguishing `name` field whose
`streams` list decodes — in particular every valid phase-2 body — is
classified as the streams phase (never as sender-info). -/
theorem claim_C7_setup_dispatch (v : Value) :
    (∀ info, decodeSenderInfo v = Except.ok info →
      decodeSetupRequest v = Except.ok (SetupRequest.SenderInfoReq info))
  ∧ (v.lookup "name" = none →
      ∀ reqs, decodeStreamsVariant v = Except.ok reqs →
        decodeSetupRequest v = Except.ok (SetupRequest.Streams reqs)) := by
  constructor
  · intro info h
    unfold decodeSetupRequest
    rw [h]
  · intro hname reqs h
    have hsi := decodeSenderInfo_missing_name v hname
    unfold decodeSetupRequest
    rw [hsi, h]

/-- Witness for C7: a minimal valid phase-1 body is classified as
`SenderInfo`, and a minimal valid phase-2 body as `Streams`. -/
theorem claim_C7_setup_dispatch_witness :
    decodeSetupRequest (Value.obj [("name", Value.str "mac"), ("model", Value.str "m"),
      ("deviceID", Value.str "d"), ("macAddress", Value.str "a"),
      ("ekey", Value.bytes [1]), ("eiv", Value.bytes [2]),
      ("timingProtocol", Value.str "PTP")]) =
      Except.ok (SetupRequest.SenderInfoReq
        { name := "mac", model := "m", device_id := "d", mac_addr := "a",
          os_name := none, os_version := none, os_build_version := none,
          ekey := [1], eiv := [2], timing_proto := TimingProtocol.Ptp })
  ∧ decodeSetupRequest (Value.obj [("streams", Value.arr
      [Value.obj [("type", Value.int 110), ("streamConnectionID", Value.int 7),
        ("latencyMs", Value.int 100)]])]) =
      Except.ok (SetupRequest.Streams [StreamRequest.Video ⟨7, 100⟩]) :=
  ⟨(claim_C7_setup_dispatch (Value.obj [("name", Value.str "mac"),
      ("model", Value.str "m"), ("deviceID", Value.str "d"), ("macAddress", Value.str "a"),
      ("ekey", Value.bytes [1]), ("eiv", Value.bytes [2]),
      ("timingProtocol", Value.str "PTP")])).1 _ rfl,
   (claim_C7_setup_dispatch (Value.obj [("streams", Value.arr
      [Value.obj [("type", Value.int 110), ("streamConnectionID", Value.int 7),
        ("latencyMs", Value.int 100)]])])).2 rfl _ rfl⟩

/-- The response variant that answers a given request variant (same
stream kind). -/
def respondsTo : StreamResponse → StreamRequest → Prop
  | StreamResponse.AudioRealtime _ _ _, StreamRequest.AudioRealtime _ => True
  | StreamResponse.AudioBuffered _ _ _, StreamRequest.AudioBuffered _ => True
  | StreamResponse.Video _ _, StreamRequest.Video _ => True
  | _, _ => False

/-- C8: the encoded response for each variant carries a `type` field
equal to the stream-type code under which the corresponding request
variant is decoded (96/103/110), together with the variant-specific
extra field: `controlPort` for real-time audio, `audioBufferSize` for
buffered audio, and neither for video. -/
theorem claim_C8_response_type_round_trip :
    (∀ (resp : StreamResponse) (req : StreamRequest), respondsTo resp req →
      (encodeStreamResponse resp).lookup "type" =
        some (Value.int (streamRequestCode req)))
  ∧ (∀ (v : Value) (req : StreamRequest), decodeStreamRequest v = Except.ok req →
      v.lookup "type" = some (Value.int (streamRequestCode req)))
  ∧ (∀ id dp cp : Nat,
      (encodeStreamResponse (StreamResponse.AudioRealtime id dp cp)).lookup "controlPort" =
        some (Value.int cp))
  ∧ (∀ id dp bs : Nat,
      (encodeStreamResponse (StreamResponse.AudioBuffered id dp bs)).lookup
        "audioBufferSize" = some (Value.int bs))
  ∧ (∀ id dp : Nat,
      (encodeStreamResponse (StreamResponse.Video id dp)).lookup "controlPort" = none
    ∧ (encodeStreamResponse (StreamResponse.Video id dp)).lookup "audioBufferSize" = none) := by
  refine ⟨?_, ?_, ?_, ?_, ?_⟩
  · intro resp req hrt
    cases resp <;> cases req <;> simp [respondsTo] at hrt <;> rfl
  · exact fun v req h => decodeStreamRequest_ok_code v req h
  · intro id dp cp
    rfl
  · intro id dp bs
    rfl
  · intro id dp
    exact ⟨rfl, rfl⟩

/-- Witness for C8: the encoded real-time audio response carries type 96
matching an originating real-time request, and a decoded video request
carries wire code 110. -/
theorem claim_C8_response_type_round_trip_witness :
    (encodeStreamResponse (StreamResponse.AudioRealtime 1 2 3)).lookup "type" =
      some (Value.int (streamRequestCode
        (StreamRequest.AudioRealtime ⟨0, 0, 0, 0, 0, 0, 0⟩)))
  ∧ (Value.obj [("type", Value.int 110), ("streamConnectionID", Value.int 7),
      ("latencyMs", Value.int 100)]).lookup "type" =
      some (Value.int (streamRequestCode (StreamRequest.Video ⟨7, 100⟩))) :=
  ⟨claim_C8_response_type_round_trip.1 (StreamResponse.AudioRealtime 1 2 3)
     (StreamRequest.AudioRealtime ⟨0, 0, 0, 0, 0, 0, 0⟩) trivial,
   claim_C8_response_type_round_trip.2.1 _ (StreamRequest.Video ⟨7, 100⟩) rfl⟩

/-- C9: teardown decoding distinguishes absence from emptiness — an
absent `streams` field decodes to the "tear down everything" request
(`requests = none`), a present empty list decodes successfully to
`requests = some []` — and within a listed element the stream id is
optional while the type is required. -/
theorem claim_C9_teardown_optional_streams (v w : Value) :
    (v.lookup "streams" = none → decodeTeardown v = Except.ok { requests := none })
  ∧ (v.lookup "streams" = some (Value.arr []) →
      decodeTeardown v = Except.ok { requests := some [] })
  ∧ (∀ t : Nat, w.lookup "streamID" = none →
      w.lookup "type" = some (Value.int (t : Int)) → t < 4294967296 →
      decodeTeardownRequest w = Except.ok { id := none, ty := t })
  ∧ (∀ i t : Nat, w.lookup "streamID" = some (Value.int (i : Int)) →
      i < 18446744073709551616 →
      w.lookup "type" = some (Value.int (t : Int)) → t < 4294967296 →
      decodeTeardownRequest w = Except.ok { id := some i, ty := t })
  ∧ (w.lookup "type" = none → ∃ e, decodeTeardownRequest w = Except.error e) := by
  refine ⟨?_, ?_, ?_, ?_, ?_⟩
  · intro h
    unfold decodeTeardown
    rw [h]
  · intro h
    unfold decodeTeardown
    rw [h]
    rfl
  · intro t hid hty h32
    have h1 := getOptU64_none w "streamID" hid
    have h2 := getU32_lookup_nat w "type" t hty h32
    unfold decodeTeardownRequest
    rw [h1]
    show ((match getU32 w "type" with
           | Except.error e => Except.error e
           | Except.ok ty => Except.ok { id := none, ty := ty }) :
        Except String TeardownRequest) =
      Except.ok { id := none, ty := t }
    rw [h2]
  · intro i t hid h64 hty h32
    have h1 := getOptU64_lookup_nat w "streamID" i hid h64
    have h2 := getU32_lookup_nat w "type" t hty h32
    unfold decodeTeardownRequest
    rw [h1]
    show ((match getU32 w "type" with
           | Except.error e => Except.error e
           | Except.ok ty => Except.ok { id := some i, ty := ty }) :
        Except String TeardownRequest) =
      Except.ok { id := some i, ty := t }
    rw [h2]
  · intro h
    have h2 : getU32 w "type" = Except.error ("missing field " ++ "type") := by
      unfold getU32
      rw [h]
    cases h1 : getOptU64 w "streamID"
    · rename_i e
      exact ⟨e, by unfold decodeTeardownRequest; rw [h1]⟩
    · rename_i oid
      refine ⟨"missing field " ++ "type", ?_⟩
      unfold decodeTeardownRequest
      rw [h1]
      show ((match getU32 w "type" with
             | Except.error e => Except.error e
             | Except.ok ty => Except.ok { id := oid, ty := ty }) :
          Except String TeardownRequest) =
        Except.error ("missing field " ++ "type")
      rw [h2]

/-- Witness for C9: an empty object tears down everything; a present
empty list decodes to an empty request list; an element with only a
`type` decodes with no id; an element with both fields decodes fully;
and an element without a `type` fails. -/
theorem claim_C9_teardown_optional_streams_witness :
    decodeTeardown (Value.obj []) = Except.ok { requests := none }
  ∧ decodeTeardown (Value.obj [("streams", Value.arr [])]) =
      Except.ok { requests := some [] }
  ∧ decodeTeardownRequest (Value.obj [("type", Value.int 110)]) =
      Except.ok { id := none, ty := 110 }
  ∧ decodeTeardownRequest (Value.obj [("streamID", Value.int 5), ("type", Value.int 96)]) =
      Except.ok { id := some 5, ty := 96 }
  ∧ ∃ e, decodeTeardownRequest (Value.obj [("streamID", Value.int 5)]) = Except.error e :=
  ⟨(claim_C9_teardown_optional_streams (Value.obj []) (Value.obj [])).1 rfl,
   (claim_C9_teardown_optional_streams (Value.obj [("streams", Value.arr [])])
      (Value.obj [])).2.1 rfl,
   (claim_C9_teardown_optional_streams (Value.obj [])
      (Value.obj [("type", Value.int 110)])).2.2.1 110 rfl rfl (by decide),
   (claim_C9_teardown_optional_streams (Value.obj [])
      (Value.obj [("streamID", Value.int 5), ("type", Value.int 96)])).2.2.2.1 5 96
      rfl (by decide) rfl (by decide),
   (claim_C9_teardown_optional_streams (Value.obj [])
      (Value.obj [("streamID", Value.int 5)])).2.2.2.2 rfl⟩
